import Mathlib

/-!
Verification of the Hyper-V SynIC / VSM emulation core
(`hw/hyperv/hyperv.c`) against its natural-language specification.

The definitions below are a shallow embedding of the C source.  Pure
computations become Lean functions; functions that mutate state take the
state as an argument and return the updated state; C `assert`s and
NULL-pointer dereferences are modelled as `Except.error ()` (a host
crash); machine integers are `Nat` with explicit truncation where the C
type would truncate.
-/

namespace QemuHyperv

/-! ## Constants -/

/-- POSIX errno used by `hyperv_post_msg` / `cpu_post_msg` for "try again". -/
def EAGAIN : Int := 11

/-- POSIX errno used for "no such device" (SynIC disabled / page unmapped). -/
def ENXIO_errno : Int := 6

/-- POSIX errno used for "invalid argument" (out-of-range event number). -/
def EINVAL : Int := 22

/-- Modelled from the spec: `HV_MESSAGE_NONE`, the message-type value meaning
"slot empty".  The spec calls a delivered message's type "non-none" (§8); the
defining header `hyperv-proto.h` is not under `src/`.  The empty value is 0. -/
def HV_MESSAGE_NONE : Nat := 0

/-- Modelled from the spec: `HV_MESSAGE_FLAG_PENDING`, the flag bit that
`cpu_post_msg` ORs into an occupied slot's `message_flags` ("sets a pending
flag on that slot", §4.1); defined in `hyperv-proto.h`, not under `src/`. -/
def HV_MESSAGE_FLAG_PENDING : Nat := 1

/-- Modelled from the spec: `HV_EVENT_FLAGS_COUNT`, the number of event-flag
bits per sint ("event page = per-sint 256-bit flag vector", §3); defined in
`hyperv-proto.h`, not under `src/`. -/
def HV_EVENT_FLAGS_COUNT : Nat := 256

/-- Modelled from the spec: number of sints per vCPU ("a small fixed set per
vCPU", glossary); `HV_SINT_COUNT` is defined in a header not under `src/`. -/
def HV_SINT_COUNT : Nat := 16

/-- Modelled from the spec: number of synthetic timers per vCPU;
`HV_STIMER_COUNT` is defined in a header not under `src/`. -/
def HV_STIMER_COUNT : Nat := 4

/-! ## Staged-message state machine (`HvSintStagedMessage`, C1-C3) -/

/-- The `state` field of `HvSintStagedMessage`. -/
inductive HvStagedMsgState where
  | FREE
  | BUSY
  | POSTED
deriving DecidableEq

/-- `struct hyperv_message_header` (fixed-size header of a SynIC message). -/
structure HypervMessageHeader where
  message_type : Nat
  payload_size : Nat
  message_flags : Nat
  reserved : Nat
  sender : Nat
deriving DecidableEq

/-- `struct hyperv_message`: header plus payload bytes.  A `memcpy` of the
whole struct is modelled as copying the record. -/
structure HypervMessage where
  header : HypervMessageHeader
  payload : List Nat
deriving DecidableEq

instance : Inhabited HypervMessage :=
  ⟨{ header := { message_type := 0, payload_size := 0, message_flags := 0,
                 reserved := 0, sender := 0 }, payload := [] }⟩

/-- `HvSintStagedMessage`: staged message content, posting status and the
atomic handoff state.  The read-only callback pointer is not part of the
state; callback invocations are modelled as the list of statuses passed to
the callback (see `sint_msg_bh`). -/
structure HvSintStagedMessage where
  msg : HypervMessage
  status : Int
  state : HvStagedMsgState
deriving DecidableEq

/-- `struct HvSintRoute` (the fields the verified operations touch): sint
number, GSI binding (0 = none), staged message, reference count. -/
structure HvSintRoute where
  sint : Nat
  gsi : Nat
  staged_msg : HvSintStagedMessage
  refcount : Nat
deriving DecidableEq

/-- Modelled from the spec: `event_notifier_set` is the external
interrupt-injection collaborator ("inject an edge-triggered interrupt on a
host-visible line", §6); it reports success (0). -/
def event_notifier_set : Int := 0

/-- `hyperv_sint_route_set_sint`: raise the route's interrupt.  Returns 0
immediately when no GSI is bound, otherwise the notifier's status. -/
def hyperv_sint_route_set_sint (r : HvSintRoute) : Int :=
  if r.gsi = 0 then 0 else event_notifier_set

/-- `hyperv_post_msg`: grab the staging area with a compare-and-swap
FREE→BUSY; on failure return `-EAGAIN` without side effects; on success copy
the message, take a reference on the route and schedule `cpu_post_msg` on the
vcpu thread.  Result: (return value, updated route, delivery scheduled?). -/
def hyperv_post_msg (r : HvSintRoute) (src : HypervMessage) :
    Int × HvSintRoute × Bool :=
  if r.staged_msg.state = HvStagedMsgState.FREE then
    (0,
     { r with
         staged_msg := { r.staged_msg with state := HvStagedMsgState.BUSY,
                                           msg := src },
         refcount := r.refcount + 1 },
     true)
  else
    (-EAGAIN, r, false)

/-- `SynICState` (the fields the verified operations touch).  The message
page is its array of message slots; the event page is modelled flat, as the
sequence of 64-bit words that make it up (`slot[sint].flags[idx]` lives at
word `sint * (HV_EVENT_FLAGS_COUNT / 64) + idx`), so that an out-of-bounds
`flags` index is visible as a write beyond the slot's words.  The two
`_dirty` booleans model `memory_region_set_dirty` on the respective pages. -/
structure SynICStateM where
  sctl_enabled : Bool
  msg_page_addr : Nat
  event_page_addr : Nat
  msg_slots : List HypervMessage
  msg_page_dirty : Bool
  event_words : Nat → Nat
  event_page_dirty : Bool

/-- `cpu_post_msg` (vcpu-thread delivery step).  The entry `assert` that the
state is BUSY is modelled as `Except.error`.  Result on success:
(updated SynIC, updated route, completion BH scheduled?). -/
def cpu_post_msg (synic : SynICStateM) (r : HvSintRoute) :
    Except Unit (SynICStateM × HvSintRoute × Bool) :=
  if r.staged_msg.state ≠ HvStagedMsgState.BUSY then Except.error () else
  if synic.msg_page_addr = 0 then
    Except.ok (synic,
      { r with staged_msg := { r.staged_msg with status := -ENXIO_errno,
                                                 state := HvStagedMsgState.POSTED } },
      true)
  else
    let dst := synic.msg_slots.getD r.sint default
    if dst.header.message_type ≠ HV_MESSAGE_NONE then
      Except.ok
        ({ synic with
             msg_slots := synic.msg_slots.set r.sint
               { dst with header := { dst.header with
                   message_flags := dst.header.message_flags ||| HV_MESSAGE_FLAG_PENDING } },
             msg_page_dirty := true },
         { r with staged_msg := { r.staged_msg with status := -EAGAIN,
                                                    state := HvStagedMsgState.POSTED } },
         false)
    else
      Except.ok
        ({ synic with
             msg_slots := synic.msg_slots.set r.sint r.staged_msg.msg,
             msg_page_dirty := true },
         { r with staged_msg := { r.staged_msg with
             status := hyperv_sint_route_set_sint r,
             state := HvStagedMsgState.POSTED } },
         true)

/-- `hyperv_sint_route_unref`: drop one reference.  (When the count reaches
zero the C code additionally unlinks and frees the route; teardown has no
observable effect on the fields modelled here.) -/
def hyperv_sint_route_unref (r : HvSintRoute) : HvSintRoute :=
  { r with refcount := r.refcount - 1 }

/-- `sint_msg_bh` (completion bottom half).  If the state is not POSTED it is
a no-op; otherwise it runs the callback with the recorded status, resets the
status, moves POSTED→FREE and drops the post-time reference.  The second
component lists the statuses passed to the callback during this run. -/
def sint_msg_bh (r : HvSintRoute) : HvSintRoute × List Int :=
  if r.staged_msg.state ≠ HvStagedMsgState.POSTED then (r, [])
  else
    (hyperv_sint_route_unref
       { r with staged_msg := { r.staged_msg with status := 0,
                                                  state := HvStagedMsgState.FREE } },
     [r.staged_msg.status])

/-! ## Event-flag signaling (`hyperv_set_event_flag`, C6-C7) -/

/-- `BIT_WORD` from `qemu/bitops.h`: word index of bit `n` (64-bit words). -/
def BIT_WORD (n : Nat) : Nat := n / 64

/-- `BIT_MASK` from `qemu/bitops.h`: in-word mask of bit `n`. -/
def BIT_MASK (n : Nat) : Nat := 2 ^ (n % 64)

/-- Flat word index of `event_page->slot[sint].flags[set_idx]` inside the
event page (each slot owns `HV_EVENT_FLAGS_COUNT / 64` consecutive words). -/
def eventWordIndex (sint set_idx : Nat) : Nat :=
  sint * (HV_EVENT_FLAGS_COUNT / 64) + set_idx

/-- `hyperv_set_event_flag`: validate the event number and the SynIC, then
atomically OR one bit into the per-sint flag vector; on the 0→1 edge mark the
page dirty and raise the sint's interrupt.  Result:
(return value, updated SynIC, number of `hyperv_sint_route_set_sint` calls). -/
def hyperv_set_event_flag (synic : SynICStateM) (r : HvSintRoute)
    (eventno : Nat) : Int × SynICStateM × Nat :=
  if HV_EVENT_FLAGS_COUNT < eventno then (-EINVAL, synic, 0)
  else if ¬ synic.sctl_enabled ∨ synic.event_page_addr = 0 then (-ENXIO_errno, synic, 0)
  else
    let set_idx := BIT_WORD eventno
    let set_mask := BIT_MASK eventno
    let idx := eventWordIndex r.sint set_idx
    let old := synic.event_words idx
    let words1 := fun i => if i = idx then old ||| set_mask else synic.event_words i
    if old &&& set_mask ≠ set_mask then
      (hyperv_sint_route_set_sint r,
       { synic with event_words := words1, event_page_dirty := true }, 1)
    else
      (0, { synic with event_words := words1 }, 0)

/-! ## Segment registers and per-VTL architectural state (C4, C9, C10) -/

/-- Modelled from the spec: x86 segment-descriptor flag bit positions
(`DESC_*` in QEMU `target/i386/cpu.h`, which is part of this repository but
not under `src/`); the values are the architectural descriptor layout. -/
def DESC_TYPE_SHIFT : Nat := 8

def DESC_S_MASK : Nat := 2 ^ 12

def DESC_DPL_SHIFT : Nat := 13

def DESC_P_MASK : Nat := 2 ^ 15

def DESC_AVL_MASK : Nat := 2 ^ 20

def DESC_L_SHIFT : Nat := 21

def DESC_B_SHIFT : Nat := 22

def DESC_G_MASK : Nat := 2 ^ 23

/-- Modelled from the spec: `KVM_MP_STATE_RUNNABLE` (KVM header, not under
`src/`), the "context may execute" run state; value 0. -/
def KVM_MP_STATE_RUNNABLE : Nat := 0

/-- Modelled from the spec: the BSP bit of the APIC base MSR
(`MSR_IA32_APICBASE_BSP`, header not under `src/`); architectural bit 8. -/
def MSR_IA32_APICBASE_BSP : Nat := 2 ^ 8

/-- QEMU's `SegmentCache` (`selector`, `base`, `limit`, `flags`): the shared
virtual-CPU object's representation of one segment register. -/
structure SegmentCache where
  selector : Nat
  base : Nat
  limit : Nat
  flags : Nat
deriving DecidableEq

instance : Inhabited SegmentCache := ⟨⟨0, 0, 0, 0⟩⟩

/-- `struct hv_x64_segment_register` (bitfield members are the field values;
`_long` and `_default` are renamed `long_mode` and `default_op`). -/
structure hv_x64_segment_register where
  base : Nat
  limit : Nat
  selector : Nat
  segment_type : Nat
  non_system_segment : Nat
  descriptor_privilege_level : Nat
  present : Nat
  reserved : Nat
  available : Nat
  long_mode : Nat
  default_op : Nat
  granularity : Nat
deriving DecidableEq

instance : Inhabited hv_x64_segment_register :=
  ⟨⟨0, 0, 0, 0, 0, 0, 0, 0, 0, 0, 0, 0⟩⟩

/-- `struct hv_x64_table_register` (IDTR/GDTR: limit and base). -/
structure hv_x64_table_register where
  limit : Nat
  base : Nat
deriving DecidableEq

instance : Inhabited hv_x64_table_register := ⟨⟨0, 0⟩⟩

/-- `hyperv_set_seg`: build a `SegmentCache` from an
`hv_x64_segment_register`, packing the descriptor bits into `flags`. -/
def hyperv_set_seg (rhs : hv_x64_segment_register) : SegmentCache :=
  { selector := rhs.selector
    base := rhs.base
    limit := rhs.limit
    flags := (rhs.segment_type <<< DESC_TYPE_SHIFT) |||
             (rhs.present * DESC_P_MASK) |||
             (rhs.descriptor_privilege_level <<< DESC_DPL_SHIFT) |||
             (rhs.default_op <<< DESC_B_SHIFT) |||
             (rhs.non_system_segment * DESC_S_MASK) |||
             (rhs.long_mode <<< DESC_L_SHIFT) |||
             (rhs.granularity * DESC_G_MASK) |||
             (rhs.available * DESC_AVL_MASK) }

/-- `hyperv_get_seg`: extract an `hv_x64_segment_register` from a
`SegmentCache`, unpacking the descriptor bits of `flags` (C `!= 0` tests of
one-bit fields yield 0/1). -/
def hyperv_get_seg (lhs : SegmentCache) : hv_x64_segment_register :=
  { selector := lhs.selector
    base := lhs.base
    limit := lhs.limit
    segment_type := (lhs.flags >>> DESC_TYPE_SHIFT) &&& 15
    non_system_segment := if lhs.flags &&& DESC_S_MASK ≠ 0 then 1 else 0
    descriptor_privilege_level := (lhs.flags >>> DESC_DPL_SHIFT) &&& 3
    present := if lhs.flags &&& DESC_P_MASK ≠ 0 then 1 else 0
    reserved := 0
    available := if lhs.flags &&& DESC_AVL_MASK ≠ 0 then 1 else 0
    long_mode := (lhs.flags >>> DESC_L_SHIFT) &&& 1
    default_op := (lhs.flags >>> DESC_B_SHIFT) &&& 1
    granularity := if lhs.flags &&& DESC_G_MASK ≠ 0 then 1 else 0 }

/-- `struct hv_init_vp_context` (the caller-supplied initial VP state). -/
structure hv_init_vp_context where
  rip : Nat
  rsp : Nat
  rflags : Nat
  cs : hv_x64_segment_register
  ds : hv_x64_segment_register
  es : hv_x64_segment_register
  fs : hv_x64_segment_register
  gs : hv_x64_segment_register
  ss : hv_x64_segment_register
  tr : hv_x64_segment_register
  ldtr : hv_x64_segment_register
  idtr : hv_x64_table_register
  gdtr : hv_x64_table_register
  efer : Nat
  cr0 : Nat
  cr3 : Nat
  cr4 : Nat
  msr_cr_pat : Nat
deriving DecidableEq

/-- QEMU's `CPUX86State`, restricted to the fields this file's functions
read or write, plus one `other` component standing for every remaining field
of the struct (those are only ever copied wholesale by
`hyperv_sync_shared_vtl_state`'s `memcpy`).  Array fields keep their C
indices: `regs` (R_ESP = 4), `segs` (R_ES = 0, R_CS = 1, R_SS = 2, R_DS = 3,
R_FS = 4, R_GS = 5), `cr`, `dr`. -/
structure CPUX86StateM where
  regs : Fin 16 → Nat
  eip : Nat
  eflags : Nat
  segs : Fin 6 → SegmentCache
  ldt : SegmentCache
  tr : SegmentCache
  gdt : SegmentCache
  idt : SegmentCache
  cr : Fin 5 → Nat
  dr : Fin 8 → Nat
  efer : Nat
  pat : Nat
  kernelgsbase : Nat
  gsbase : Nat
  fsbase : Nat
  tsc_aux : Nat
  sysenter_cs : Nat
  sysenter_esp : Nat
  sysenter_eip : Nat
  star : Nat
  lstar : Nat
  cstar : Nat
  fmask : Nat
  msr_hv_synic_control : Nat
  msr_hv_synic_evt_page : Nat
  msr_hv_synic_msg_page : Nat
  msr_hv_synic_sint : Fin 16 → Nat
  msr_hv_stimer_config : Fin 4 → Nat
  msr_hv_stimer_count : Fin 4 → Nat
  msr_hv_guest_os_id : Nat
  msr_hv_hypercall : Nat
  msr_hv_tsc : Nat
  exception_nr : Int
  interrupt_injected : Int
  soft_interrupt : Nat
  exception_pending : Nat
  exception_injected : Nat
  has_error_code : Nat
  exception_has_payload : Nat
  exception_payload : Nat
  triple_fault_pending : Nat
  ins_len : Nat
  sipi_vector : Nat
  mp_state : Nat
  msr_hv_vapic : Nat
  vsm_code_page_offsets64 : Nat
  other : Nat

/-- `struct kvm_hv_vcpu_per_vtl_state` (the per-VTL privileged snapshot). -/
structure kvm_hv_vcpu_per_vtl_state where
  rip : Nat
  rsp : Nat
  rflags : Nat
  efer : Nat
  cr0 : Nat
  cr3 : Nat
  cr4 : Nat
  dr7 : Nat
  msr_cr_pat : Nat
  msr_kernel_gsbase : Nat
  msr_gsbase : Nat
  msr_fsbase : Nat
  msr_tsc_aux : Nat
  msr_sysenter_cs : Nat
  msr_sysenter_esp : Nat
  msr_sysenter_eip : Nat
  msr_star : Nat
  msr_lstar : Nat
  msr_cstar : Nat
  msr_sfmask : Nat
  msr_hv_synic_control : Nat
  msr_hv_synic_evt_page : Nat
  msr_hv_synic_msg_page : Nat
  msr_hv_synic_sint : Fin 16 → Nat
  msr_hv_stimer_config : Fin 4 → Nat
  msr_hv_stimer_count : Fin 4 → Nat
  msr_hv_guest_os_id : Nat
  msr_hv_hypercall : Nat
  msr_hv_tsc : Nat
  apic_base : Nat
  cs : hv_x64_segment_register
  ds : hv_x64_segment_register
  es : hv_x64_segment_register
  fs : hv_x64_segment_register
  gs : hv_x64_segment_register
  ss : hv_x64_segment_register
  tr : hv_x64_segment_register
  ldtr : hv_x64_segment_register
  idtr : hv_x64_table_register
  gdtr : hv_x64_table_register
  exception_nr : Int
  interrupt_injected : Int
  soft_interrupt : Nat
  exception_pending : Nat
  exception_injected : Nat
  has_error_code : Nat
  exception_has_payload : Nat
  exception_payload : Nat
  triple_fault_pending : Nat
  ins_len : Nat
  sipi_vector : Nat

/-- `hyperv_set_vtl_cpu_state`: load an `hv_init_vp_context` into the CPU
state.  Note the two trailing assignments propagating `gs.base`/`fs.base`
into the `MSR_GS_BASE`/`MSR_FS_BASE` fields. -/
def hyperv_set_vtl_cpu_state (env : CPUX86StateM) (c : hv_init_vp_context) :
    CPUX86StateM :=
  { env with
      regs := Function.update env.regs 4 c.rsp
      eip := c.rip
      eflags := c.rflags
      segs :=
        Function.update
          (Function.update
            (Function.update
              (Function.update
                (Function.update
                  (Function.update env.segs 1 (hyperv_set_seg c.cs))
                  3 (hyperv_set_seg c.ds))
                0 (hyperv_set_seg c.es))
              4 (hyperv_set_seg c.fs))
            5 (hyperv_set_seg c.gs))
          2 (hyperv_set_seg c.ss)
      tr := hyperv_set_seg c.tr
      ldt := hyperv_set_seg c.ldtr
      idt := { env.idt with limit := c.idtr.limit, base := c.idtr.base }
      gdt := { env.gdt with limit := c.gdtr.limit, base := c.gdtr.base }
      efer := c.efer
      cr := Function.update
              (Function.update (Function.update env.cr 0 c.cr0) 3 c.cr3)
              4 c.cr4
      pat := c.msr_cr_pat
      mp_state := KVM_MP_STATE_RUNNABLE
      gsbase := c.gs.base
      fsbase := c.fs.base }

/-- `hyperv_save_priv_vtl_state`: snapshot the per-VTL-private fields of the
CPU state into the route's `priv_state`.  The `apic_base` member of the
snapshot is never written (nor later read). -/
def hyperv_save_priv_vtl_state (env : CPUX86StateM)
    (p : kvm_hv_vcpu_per_vtl_state) : kvm_hv_vcpu_per_vtl_state :=
  { p with
      msr_kernel_gsbase := env.kernelgsbase
      msr_gsbase := env.gsbase
      msr_fsbase := env.fsbase
      msr_tsc_aux := env.tsc_aux
      msr_sysenter_cs := env.sysenter_cs
      msr_sysenter_esp := env.sysenter_esp
      msr_sysenter_eip := env.sysenter_eip
      msr_star := env.star
      msr_lstar := env.lstar
      msr_cstar := env.cstar
      msr_sfmask := env.fmask
      msr_cr_pat := env.pat
      msr_hv_synic_control := env.msr_hv_synic_control
      msr_hv_synic_evt_page := env.msr_hv_synic_evt_page
      msr_hv_synic_msg_page := env.msr_hv_synic_msg_page
      msr_hv_synic_sint := env.msr_hv_synic_sint
      msr_hv_stimer_config := env.msr_hv_stimer_config
      msr_hv_stimer_count := env.msr_hv_stimer_count
      msr_hv_guest_os_id := env.msr_hv_guest_os_id
      msr_hv_hypercall := env.msr_hv_hypercall
      msr_hv_tsc := env.msr_hv_tsc
      rip := env.eip
      rsp := env.regs 4
      rflags := env.eflags
      efer := env.efer
      cr0 := env.cr 0
      cr3 := env.cr 3
      cr4 := env.cr 4
      dr7 := env.dr 7
      cs := hyperv_get_seg (env.segs 1)
      ds := hyperv_get_seg (env.segs 3)
      es := hyperv_get_seg (env.segs 0)
      fs := hyperv_get_seg (env.segs 4)
      gs := hyperv_get_seg (env.segs 5)
      ss := hyperv_get_seg (env.segs 2)
      tr := hyperv_get_seg env.tr
      ldtr := hyperv_get_seg env.ldt
      idtr := { limit := env.idt.limit, base := env.idt.base }
      gdtr := { limit := env.gdt.limit, base := env.gdt.base }
      exception_nr := env.exception_nr
      interrupt_injected := env.interrupt_injected
      soft_interrupt := env.soft_interrupt
      exception_pending := env.exception_pending
      exception_injected := env.exception_injected
      has_error_code := env.has_error_code
      exception_has_payload := env.exception_has_payload
      exception_payload := env.exception_payload
      triple_fault_pending := env.triple_fault_pending
      ins_len := env.ins_len
      sipi_vector := env.sipi_vector }

/-- `hyperv_restore_priv_vtl_state`: write the saved per-VTL fields back into
the CPU state.  MSRs and exception/injection state are restored directly;
rip/rsp/rflags, control registers, segments and descriptor tables go through
a zero-initialized `hv_init_vp_context` and `hyperv_set_vtl_cpu_state`.
`dr7`, though present in the snapshot, is never restored.  The function also
forces the BSP bit into the APIC base MSR.  Result: (CPU state, APIC base). -/
def hyperv_restore_priv_vtl_state (p : kvm_hv_vcpu_per_vtl_state)
    (env0 : CPUX86StateM) (apic_base : Nat) : CPUX86StateM × Nat :=
  let env :=
    { env0 with
        kernelgsbase := p.msr_kernel_gsbase
        gsbase := p.msr_gsbase
        fsbase := p.msr_fsbase
        tsc_aux := p.msr_tsc_aux
        sysenter_cs := p.msr_sysenter_cs
        sysenter_esp := p.msr_sysenter_esp
        sysenter_eip := p.msr_sysenter_eip
        star := p.msr_star
        lstar := p.msr_lstar
        cstar := p.msr_cstar
        fmask := p.msr_sfmask
        msr_hv_synic_control := p.msr_hv_synic_control
        msr_hv_synic_evt_page := p.msr_hv_synic_evt_page
        msr_hv_synic_msg_page := p.msr_hv_synic_msg_page
        msr_hv_synic_sint := p.msr_hv_synic_sint
        msr_hv_stimer_config := p.msr_hv_stimer_config
        msr_hv_stimer_count := p.msr_hv_stimer_count
        msr_hv_guest_os_id := p.msr_hv_guest_os_id
        msr_hv_hypercall := p.msr_hv_hypercall
        msr_hv_tsc := p.msr_hv_tsc
        exception_nr := p.exception_nr
        interrupt_injected := p.interrupt_injected
        soft_interrupt := p.soft_interrupt
        exception_pending := p.exception_pending
        exception_injected := p.exception_injected
        has_error_code := p.has_error_code
        exception_has_payload := p.exception_has_payload
        exception_payload := p.exception_payload
        triple_fault_pending := p.triple_fault_pending
        ins_len := p.ins_len
        sipi_vector := p.sipi_vector }
  let ctx : hv_init_vp_context :=
    { rip := p.rip
      rsp := p.rsp
      rflags := p.rflags
      efer := p.efer
      cr0 := p.cr0
      cr3 := p.cr3
      cr4 := p.cr4
      msr_cr_pat := p.msr_cr_pat
      cs := p.cs
      ds := p.ds
      es := p.es
      fs := p.fs
      gs := p.gs
      ss := p.ss
      tr := p.tr
      ldtr := p.ldtr
      idtr := p.idtr
      gdtr := p.gdtr }
  (hyperv_set_vtl_cpu_state env ctx,
   apic_base ||| MSR_IA32_APICBASE_BSP)

/-- `hyperv_sync_shared_vtl_state`: save the destination's private fields
into its `priv_state`, copy the whole CPU state wholesale from the source
(`memcpy(next_env, active_env, sizeof(*next_env))`), then restore the saved
private fields.  Arguments: source CPU state, destination CPU state,
destination's `priv_state`, destination's APIC base.  Result: (destination
CPU state, destination `priv_state`, destination APIC base) after the sync.
(`cpu_synchronize_state` / `kvm_cpu_synchronize_post_reset` are the external
register-sync collaborator, §6, and do not change the modelled state.) -/
def hyperv_sync_shared_vtl_state (active_env next_env : CPUX86StateM)
    (next_priv : kvm_hv_vcpu_per_vtl_state) (next_apic : Nat) :
    CPUX86StateM × kvm_hv_vcpu_per_vtl_state × Nat :=
  let p := hyperv_save_priv_vtl_state next_env next_priv
  let copied := active_env
  let res := hyperv_restore_priv_vtl_state p copied next_apic
  (res.1, p, res.2)

/-! ## VTL machine model, switch protocol and hypercalls (C5, C8, C9) -/

/-- Hyper-V hypercall status codes.  Modelled from the spec: the handlers
"return one status from a fixed enumeration" (§6); the numeric values come
from the TLFS header, which is not under `src/`. -/
def HV_STATUS_SUCCESS : Nat := 0

def HV_STATUS_INVALID_HYPERCALL_CODE : Nat := 2

def HV_STATUS_INVALID_HYPERCALL_INPUT : Nat := 3

def HV_STATUS_INVALID_ALIGNMENT : Nat := 4

def HV_STATUS_INVALID_PARAMETER : Nat := 5

def HV_STATUS_ACCESS_DENIED : Nat := 6

def HV_STATUS_INVALID_PARTITION_ID : Nat := 13

def HV_STATUS_INVALID_VP_INDEX : Nat := 88

/-- Modelled from the spec: `HV_PARTITION_ID_SELF` ("only self-targeting is
supported"); the TLFS self id, all-ones in 64 bits. -/
def HV_PARTITION_ID_SELF : Nat := 2 ^ 64 - 1

/-- Modelled from the spec: `HV_VP_INDEX_SELF`, the TLFS "this vCPU" index. -/
def HV_VP_INDEX_SELF : Nat := 0xFFFFFFFE

/-- `enum hv_vtl_entry_reason`. -/
def HV_VTL_ENTRY_VTL_CALL : Nat := 1

def HV_VTL_ENTRY_INTERRUPT : Nat := 2

/-- QEMU's `EXCP_HALTED` (returned by the VTL hypercalls on a switch). -/
def EXCP_HALTED : Int := 0x10003

/-- `union hv_register_vsm_partition_status` (the bitfield members as
values): partition-wide enabled-VTL set (16 bits), maximum VTL (4 bits),
MBEC-enabled set (16 bits). -/
structure hv_register_vsm_partition_status where
  enabled_vtl_set : Nat
  maximum_vtl : Nat
  mbec_enabled_vtl_set : Nat
deriving DecidableEq

/-- `struct VpVsmState` (the fields the verified operations touch):
per-vCPU VSM status (`vsm_vp_status` bitfields as values), the per-VTL
secure-config registers, the privileged snapshot, and the guest "VP assist"
page, modelled as `none` when unmapped and `some r` when mapped with `r` the
last `vtl_entry_reason` written to its `vtl_control` area. -/
structure VpVsmStateM where
  enabled_vtl_set : Nat
  active_vtl : Nat
  vsm_vtl_config : Nat → Nat
  priv_state : kvm_hv_vcpu_per_vtl_state
  vp_assist : Option Nat

/-- One logical-processor execution context: CPU state, APIC base MSR,
stop flag, and the lazily-created per-vCPU VSM state. -/
structure CPUStateM where
  env : CPUX86StateM
  apic_base : Nat
  stopped : Bool
  vpvsm : Option VpVsmStateM

/-- The all-zero CPU state. -/
def envZero : CPUX86StateM :=
  { regs := fun _ => 0, eip := 0, eflags := 0, segs := fun _ => default,
    ldt := default, tr := default, gdt := default, idt := default,
    cr := fun _ => 0, dr := fun _ => 0, efer := 0, pat := 0,
    kernelgsbase := 0, gsbase := 0, fsbase := 0, tsc_aux := 0,
    sysenter_cs := 0, sysenter_esp := 0, sysenter_eip := 0, star := 0,
    lstar := 0, cstar := 0, fmask := 0, msr_hv_synic_control := 0,
    msr_hv_synic_evt_page := 0, msr_hv_synic_msg_page := 0,
    msr_hv_synic_sint := fun _ => 0, msr_hv_stimer_config := fun _ => 0,
    msr_hv_stimer_count := fun _ => 0, msr_hv_guest_os_id := 0,
    msr_hv_hypercall := 0, msr_hv_tsc := 0, exception_nr := 0,
    interrupt_injected := 0, soft_interrupt := 0, exception_pending := 0,
    exception_injected := 0, has_error_code := 0,
    exception_has_payload := 0, exception_payload := 0,
    triple_fault_pending := 0, ins_len := 0, sipi_vector := 0,
    mp_state := 0, msr_hv_vapic := 0, vsm_code_page_offsets64 := 0,
    other := 0 }

instance : Inhabited CPUStateM :=
  ⟨{ env := envZero, apic_base := 0, stopped := false, vpvsm := none }⟩

/-- The virtual machine: the list of logical-processor contexts, indexed by
`cpu_index`.  In this VSM patch a vCPU's index doubles as its VTL
(`get_active_vtl` returns `cpu_index`). -/
structure MachineM where
  cpus : List CPUStateM

/-- `get_active_vtl`: the VTL of a context is its `cpu_index`. -/
def get_active_vtl (idx : Nat) : Nat := idx

/-- Replace the context at index `i` by `f` of it. -/
def updateCpuAt (m : MachineM) (i : Nat) (f : CPUStateM → CPUStateM) :
    MachineM :=
  { cpus := m.cpus.set i (f (m.cpus.getD i default)) }

/-- `qemu_get_cpu`: the context with the given index, if it exists. -/
def qemu_get_cpu (m : MachineM) (i : Int) : Option Nat :=
  if 0 ≤ i ∧ i.toNat < m.cpus.length then some i.toNat else none

/-- `hyperv_vsm_vcpu`: look up the vCPU whose `cpu_index` is the VTL, then
`assert(hyperv_vp_index(cs) == vtl)`.  When no such vCPU exists the assert
dereferences a NULL `CPUState` — a host crash, modelled as `Except.error`.
(For an existing vCPU the assert holds: index and vp_index coincide.) -/
def hyperv_vsm_vcpu (m : MachineM) (vtl : Int) : Except Unit Nat :=
  match qemu_get_cpu m vtl with
  | some i => Except.ok i
  | none => Except.error ()

/-- `hyperv_get_next_vtl`: the context one VTL above. -/
def hyperv_get_next_vtl (m : MachineM) (csIdx : Nat) : Except Unit Nat :=
  hyperv_vsm_vcpu m ((get_active_vtl csIdx : Int) + 1)

/-- `hyperv_get_prev_vtl`: the context one VTL below (from VTL0 this asks
for index −1). -/
def hyperv_get_prev_vtl (m : MachineM) (csIdx : Nat) : Except Unit Nat :=
  hyperv_vsm_vcpu m ((get_active_vtl csIdx : Int) - 1)

/-- `hyperv_hv_assist_page_enabled`: whether the context has a mapped VP
assist page. -/
def hyperv_hv_assist_page_enabled (c : CPUStateM) : Bool :=
  match c.vpvsm with
  | none => false
  | some v => v.vp_assist.isSome

/-- `hv_write_vtl_control`: write the entry reason into the assist page's
`vtl_control` area (a no-op with a BUG message when unmapped). -/
def hv_write_vtl_control (c : CPUStateM) (reason : Nat) : CPUStateM :=
  match c.vpvsm with
  | none => c
  | some v =>
    match v.vp_assist with
    | none => c
    | some _ => { c with vpvsm := some { v with vp_assist := some reason } }

/-- `set_vtl_entry_reason`: record the VTL entry reason in the guest-visible
assist page, when the guest opted in. -/
def set_vtl_entry_reason (c : CPUStateM) (reason : Nat) : CPUStateM :=
  if hyperv_hv_assist_page_enabled c then hv_write_vtl_control c reason else c

/-- `switch_vtl`: under the iothread lock, sync the shared state from the
active context into the next one (which saves into the next context's
`priv_state`, so a missing `VpVsmState` is a NULL dereference — host crash),
resume the next context and stop the active one. -/
def switch_vtl (m : MachineM) (activeIdx nextIdx : Nat) :
    Except Unit MachineM :=
  let active := m.cpus.getD activeIdx default
  let next := m.cpus.getD nextIdx default
  match next.vpvsm with
  | none => Except.error ()
  | some v =>
    let res := hyperv_sync_shared_vtl_state active.env next.env v.priv_state
                 next.apic_base
    let next1 : CPUStateM :=
      { next with env := res.1, apic_base := res.2.2,
                  vpvsm := some { v with priv_state := res.2.1 },
                  stopped := false }
    let active1 : CPUStateM := { active with stopped := true }
    Except.ok { cpus := (m.cpus.set nextIdx next1).set activeIdx active1 }

/-- `hyperv_hcall_vtl_call`: resolve the next-VTL context (the lookup itself
crashes on a missing vCPU, so the subsequent `if (!next_cs)` is
unreachable), reject callers above VTL 1 with −1, otherwise record the entry
reason and switch.  Result: (return value, machine). -/
def hyperv_hcall_vtl_call (m : MachineM) (activeIdx : Nat) :
    Except Unit (Int × MachineM) := do
  let nextIdx ← hyperv_get_next_vtl m activeIdx
  if get_active_vtl activeIdx > 1 then
    return (-1, m)
  let m1 := updateCpuAt m nextIdx
    (fun c => set_vtl_entry_reason c HV_VTL_ENTRY_VTL_CALL)
  let m2 ← switch_vtl m1 activeIdx nextIdx
  return (EXCP_HALTED, m2)

/-- `hyperv_hcall_vtl_return`: resolve the previous-VTL context and switch to
it.  There is no VTL0 guard: from VTL0 the lookup asks for vCPU index −1 and
crashes in `hyperv_vsm_vcpu`'s assert. -/
def hyperv_hcall_vtl_return (m : MachineM) (activeIdx : Nat) :
    Except Unit (Int × MachineM) := do
  let prevIdx ← hyperv_get_prev_vtl m activeIdx
  let m2 ← switch_vtl m activeIdx prevIdx
  return (EXCP_HALTED, m2)

/-- `hyperv_hcall_vtl_enable_partition_vtl`: parse the 16-byte input from the
two fast-call parameter registers (`target_partition_id` = param1;
`target_vtl` = low byte of param2, `flags` = next byte), validate, and set
the target VTL's bit in the partition-wide enabled-VTL set (a 16-bit
bitfield, hence the truncation on write).  Result: (status, new partition
status). -/
def hyperv_hcall_vtl_enable_partition_vtl
    (st : hv_register_vsm_partition_status) (param1 param2 : Nat)
    (fast : Bool) : Nat × hv_register_vsm_partition_status :=
  if !fast then (HV_STATUS_INVALID_HYPERCALL_CODE, st)
  else
    let target_partition_id := param1
    let target_vtl := param2 % 2 ^ 8
    let flags := param2 / 2 ^ 8 % 2 ^ 8
    let enable_mbec := flags % 2
    if target_partition_id ≠ HV_PARTITION_ID_SELF then
      (HV_STATUS_INVALID_PARTITION_ID, st)
    else if enable_mbec ≠ 0 then (HV_STATUS_INVALID_PARAMETER, st)
    else if st.maximum_vtl < target_vtl then (HV_STATUS_INVALID_PARAMETER, st)
    else if st.enabled_vtl_set &&& 2 ^ target_vtl ≠ 0 then
      (HV_STATUS_INVALID_PARAMETER, st)
    else
      (HV_STATUS_SUCCESS,
       { st with
           enabled_vtl_set := (st.enabled_vtl_set ||| 2 ^ target_vtl) % 2 ^ 16 })

/-- `struct hv_enable_vp_vtl` as read from guest memory: partition id, VP
index, the 4-bit `target_vtl` field of the input-VTL byte, and the initial
VP context.  (The `cpu_physical_memory_map` of the input block is the
external guest-memory collaborator, §6; the record is its mapped content,
assumed mapped at full length.) -/
structure hv_enable_vp_vtl where
  partition_id : Nat
  vp_index : Nat
  target_vtl : Nat
  vp_context : hv_init_vp_context
deriving DecidableEq

/-- `vp_vsm_realize`: the initial `VpVsmState` of a context
(VTL0 bit pre-enabled, `active_vtl` = the context's index, zeroed snapshot,
no assist page). -/
def vp_vsm_realize_state (idx : Nat) (zero : kvm_hv_vcpu_per_vtl_state) :
    VpVsmStateM :=
  { enabled_vtl_set := 1, active_vtl := get_active_vtl idx,
    vsm_vtl_config := fun _ => 0, priv_state := zero, vp_assist := none }

/-- The all-zero privileged snapshot (`g_new0` object allocation). -/
def privStateZero : kvm_hv_vcpu_per_vtl_state :=
  { rip := 0, rsp := 0, rflags := 0, efer := 0, cr0 := 0, cr3 := 0, cr4 := 0,
    dr7 := 0, msr_cr_pat := 0, msr_kernel_gsbase := 0, msr_gsbase := 0,
    msr_fsbase := 0, msr_tsc_aux := 0, msr_sysenter_cs := 0,
    msr_sysenter_esp := 0, msr_sysenter_eip := 0, msr_star := 0,
    msr_lstar := 0, msr_cstar := 0, msr_sfmask := 0,
    msr_hv_synic_control := 0, msr_hv_synic_evt_page := 0,
    msr_hv_synic_msg_page := 0, msr_hv_synic_sint := fun _ => 0,
    msr_hv_stimer_config := fun _ => 0, msr_hv_stimer_count := fun _ => 0,
    msr_hv_guest_os_id := 0, msr_hv_hypercall := 0, msr_hv_tsc := 0,
    apic_base := 0, cs := default, ds := default, es := default,
    fs := default, gs := default, ss := default, tr := default,
    ldtr := default, idtr := default, gdtr := default, exception_nr := 0,
    interrupt_injected := 0, soft_interrupt := 0, exception_pending := 0,
    exception_injected := 0, has_error_code := 0, exception_has_payload := 0,
    exception_payload := 0, triple_fault_pending := 0, ins_len := 0,
    sipi_vector := 0 }

/-- `hyperv_vp_vsm_add`: attach a fresh `VpVsmState` child to the context.
Attaching a second one aborts (`object_property_add_child` with
`error_abort` on a duplicate property name) — modelled as `Except.error`. -/
def hyperv_vp_vsm_add (m : MachineM) (idx : Nat) : Except Unit MachineM :=
  match (m.cpus.getD idx default).vpvsm with
  | some _ => Except.error ()
  | none =>
    Except.ok (updateCpuAt m idx
      (fun c => { c with vpvsm := some (vp_vsm_realize_state idx privStateZero) }))

/-- Modelled from the spec: `x86_cpu_new` asks the external virtual-CPU
execution collaborator (§6) to create a new logical-processor context; its
initial architectural state is the collaborator's reset state, modelled as
the all-zero context. -/
def x86_cpu_new_cpu : CPUStateM :=
  { env := envZero, apic_base := 0, stopped := false, vpvsm := none }

/-- `hyperv_init_vtl_vcpu`: unconditionally create a new vCPU (appended with
the next `cpu_index`), then return the vCPU whose index is the target VTL
(`hyperv_vsm_vcpu`, which crashes if it is still missing). -/
def hyperv_init_vtl_vcpu (m : MachineM) (vtl : Nat) :
    Except Unit (Nat × MachineM) :=
  let m1 : MachineM := { cpus := m.cpus ++ [x86_cpu_new_cpu] }
  match hyperv_vsm_vcpu m1 (vtl : Int) with
  | Except.ok i => Except.ok (i, m1)
  | Except.error e => Except.error e

/-- `hyperv_hcall_vtl_enable_vp_vtl`: validate the guest input, require the
target VTL to be partition-enabled and not yet vCPU-enabled, create the
target VTL's context, attach its VSM state, seed its architectural state
from the caller-supplied `vp_context`, and record the VTL in the vCPU's
enabled set (a 16-bit bitfield, hence the truncation).  `st` is the
partition-wide status (read only here); `csIdx` is the calling context.
Errors return with whatever mutations already happened (the C code `goto`s
to unmap and returns). -/
def hyperv_hcall_vtl_enable_vp_vtl (st : hv_register_vsm_partition_status)
    (m : MachineM) (csIdx : Nat) (input : hv_enable_vp_vtl) (fast : Bool) :
    Except Unit (Nat × MachineM) := do
  if fast then
    return (HV_STATUS_INVALID_HYPERCALL_INPUT, m)
  if input.partition_id ≠ HV_PARTITION_ID_SELF then
    return (HV_STATUS_INVALID_PARTITION_ID, m)
  if input.vp_index ≠ HV_VP_INDEX_SELF ∧ input.vp_index ≠ 0 then
    return (HV_STATUS_INVALID_VP_INDEX, m)
  let target ←
    if input.vp_index ≠ HV_VP_INDEX_SELF ∧ input.vp_index ≠ csIdx then
      hyperv_vsm_vcpu m (get_active_vtl csIdx : Int)
    else
      Except.ok csIdx
  if st.maximum_vtl < input.target_vtl then
    return (HV_STATUS_INVALID_PARAMETER, m)
  if st.enabled_vtl_set &&& 2 ^ input.target_vtl = 0 then
    return (HV_STATUS_INVALID_PARAMETER, m)
  let m ←
    match (m.cpus.getD target default).vpvsm with
    | none => hyperv_vp_vsm_add m target
    | some _ => Except.ok m
  let tv ←
    match (m.cpus.getD target default).vpvsm with
    | none => Except.error ()
    | some v => Except.ok v
  if tv.enabled_vtl_set &&& 2 ^ input.target_vtl ≠ 0 then
    return (HV_STATUS_INVALID_PARAMETER, m)
  let r ← hyperv_init_vtl_vcpu m input.target_vtl
  let vtlIdx := r.1
  let m := r.2
  let m ← hyperv_vp_vsm_add m vtlIdx
  let m := updateCpuAt m vtlIdx
    (fun c => { c with env := hyperv_set_vtl_cpu_state c.env input.vp_context })
  let m ←
    match (m.cpus.getD target default).vpvsm with
    | none => Except.error ()
    | some v =>
      Except.ok (updateCpuAt m target (fun c =>
        { c with vpvsm := some { v with
            enabled_vtl_set :=
              (v.enabled_vtl_set ||| 2 ^ input.target_vtl) % 2 ^ 16 } }))
  return (HV_STATUS_SUCCESS, m)

/-! ## Register access (`get_vp_register`, C10) -/

/-- Modelled from the spec: VP register identifiers — the "closed set of
architectural and VSM-specific register identifiers" dispatched by
GET/SET_VP_REGISTER (§4.6); numeric values from the TLFS header, not under
`src/`. -/
def HV_X64_REGISTER_RSP : Nat := 0x00020004

def HV_X64_REGISTER_RIP : Nat := 0x00020010

def HV_X64_REGISTER_RFLAGS : Nat := 0x00020011

def HV_X64_REGISTER_CR0 : Nat := 0x00040000

def HV_X64_REGISTER_CR3 : Nat := 0x00040002

def HV_X64_REGISTER_CR4 : Nat := 0x00040003

def HV_X64_REGISTER_DR7 : Nat := 0x00050005

def HV_X64_REGISTER_LDTR : Nat := 0x00060006

def HV_X64_REGISTER_TR : Nat := 0x00060007

def HV_X64_REGISTER_IDTR : Nat := 0x00070000

def HV_X64_REGISTER_GDTR : Nat := 0x00070001

def HV_X64_REGISTER_EFER : Nat := 0x00080001

def HV_X64_REGISTER_APIC_BASE : Nat := 0x00080003

def HV_X64_REGISTER_SYSENTER_CS : Nat := 0x00080005

def HV_X64_REGISTER_SYSENTER_EIP : Nat := 0x00080006

def HV_X64_REGISTER_SYSENTER_ESP : Nat := 0x00080007

def HV_X64_REGISTER_STAR : Nat := 0x00080008

def HV_X64_REGISTER_LSTAR : Nat := 0x00080009

def HV_X64_REGISTER_CSTAR : Nat := 0x0008000A

def HV_X64_REGISTER_SFMASK : Nat := 0x0008000B

def HV_X64_REGISTER_TSC_AUX : Nat := 0x0008007B

def HV_REGISTER_VP_ASSIST_PAGE : Nat := 0x00090013

def HV_REGISTER_VSM_CODE_PAGE_OFFSETS : Nat := 0x000D0002

def HV_REGISTER_VSM_VP_STATUS : Nat := 0x000D0003

def HV_REGISTER_VSM_PARTITION_STATUS : Nat := 0x000D0004

def HV_REGISTER_VSM_CAPABILITIES : Nat := 0x000D0006

def HV_REGISTER_VSM_PARTITION_CONFIG : Nat := 0x000D0007

def HV_REGISTER_VSM_VP_SECURE_CONFIG_VTL0 : Nat := 0x000D0010

def HV_REGISTER_VSM_VP_SECURE_CONFIG_VTL14 : Nat := 0x000D001E

/-- `struct hv_vp_register_val`: 128-bit register value as two halves. -/
structure hv_vp_register_val where
  low : Nat
  high : Nat
deriving DecidableEq

/-- Modelled from the spec: the `as_u64` view of
`union hv_register_vsm_partition_status` (bitfield packing of the header not
under `src/`): enabled set (16 bits), maximum VTL (4 bits), MBEC set. -/
def partition_status_as_u64 (st : hv_register_vsm_partition_status) : Nat :=
  st.enabled_vtl_set ||| (st.maximum_vtl <<< 16) |||
    (st.mbec_enabled_vtl_set <<< 20)

/-- Modelled from the spec: the `as_u64` view of
`union hv_register_vsm_vp_status` (header not under `src/`): active VTL
(4 bits) and the vCPU's enabled-VTL set. -/
def vp_status_as_u64 (v : VpVsmStateM) : Nat :=
  v.active_vtl ||| (v.enabled_vtl_set <<< 16)

/-- Partition-wide VSM globals read by `get_vp_register`:
`hv_vsm_partition_capabilities.as_u64`, `hv_vsm_partition_status`, and the
per-VTL `hv_vsm_partition_config[vtl].as_u64`. -/
structure VsmGlobalsM where
  capabilities : Nat
  partition_status : hv_register_vsm_partition_status
  partition_config : Nat → Nat

/-- `get_vsm_code_page_offsets` (the 64-bit-mode branch is hardwired
`true` in the source). -/
def get_vsm_code_page_offsets (env : CPUX86StateM) : Nat :=
  if true then env.vsm_code_page_offsets64 else 0

/-- `get_vsm_vp_secure_vtl_config`: read the secure-VTL-config register
`reg` on the context with active VTL `csVtl`; the register's VTL must be
strictly below the requesting VTL (and VTL0 may never read one).  Returns
`none` for "invalid parameter"; dereferences the context's `VpVsmState`
(crash when absent). -/
def get_vsm_vp_secure_vtl_config (c : CPUStateM) (csVtl reg : Nat) :
    Except Unit (Option Nat) :=
  let reg_vtl := reg - HV_REGISTER_VSM_VP_SECURE_CONFIG_VTL0
  let target_vtl := csVtl
  if target_vtl = 0 ∨ target_vtl ≤ reg_vtl then Except.ok none
  else
    match c.vpvsm with
    | none => Except.error ()
    | some v => Except.ok (some (v.vsm_vtl_config reg_vtl))

/-- `get_vp_register`: dispatch on the register name and fill in the output
value (zero-initialized).  In the LDTR/TR/IDTR/GDTR arms the source calls
`hyperv_get_seg` into a local `rhs` and then executes
`memcpy(&rhs, val, sizeof(rhs))` — destination and source reversed — so the
local is overwritten with the zeroed output and `*val` keeps its zeroes.
`cpuIdx` is the target vCPU's index (= its active VTL).  Result:
(status, output value); `Except.error` is a crash on a NULL `VpVsmState`. -/
def get_vp_register (name : Nat) (cpuIdx : Nat) (c : CPUStateM)
    (g : VsmGlobalsM) : Except Unit (Nat × hv_vp_register_val) :=
  let env := c.env
  let val0 : hv_vp_register_val := { low := 0, high := 0 }
  if name = HV_X64_REGISTER_RSP then
    Except.ok (HV_STATUS_SUCCESS, { val0 with low := env.regs 4 })
  else if name = HV_X64_REGISTER_RIP then
    Except.ok (HV_STATUS_SUCCESS, { val0 with low := env.eip })
  else if name = HV_X64_REGISTER_RFLAGS then
    Except.ok (HV_STATUS_SUCCESS, { val0 with low := env.eflags })
  else if name = HV_X64_REGISTER_CR0 then
    Except.ok (HV_STATUS_SUCCESS, { val0 with low := env.cr 0 })
  else if name = HV_X64_REGISTER_CR3 then
    Except.ok (HV_STATUS_SUCCESS, { val0 with low := env.cr 3 })
  else if name = HV_X64_REGISTER_CR4 then
    Except.ok (HV_STATUS_SUCCESS, { val0 with low := env.cr 4 })
  else if name = HV_X64_REGISTER_DR7 then
    Except.ok (HV_STATUS_SUCCESS, { val0 with low := env.dr 7 })
  else if name = HV_X64_REGISTER_LDTR then
    let _rhs := hyperv_get_seg env.ldt
    Except.ok (HV_STATUS_SUCCESS, val0)
  else if name = HV_X64_REGISTER_TR then
    let _rhs := hyperv_get_seg env.tr
    Except.ok (HV_STATUS_SUCCESS, val0)
  else if name = HV_X64_REGISTER_IDTR then
    let _rhs := hyperv_get_seg env.idt
    Except.ok (HV_STATUS_SUCCESS, val0)
  else if name = HV_X64_REGISTER_GDTR then
    let _rhs := hyperv_get_seg env.gdt
    Except.ok (HV_STATUS_SUCCESS, val0)
  else if name = HV_X64_REGISTER_EFER then
    Except.ok (HV_STATUS_SUCCESS, { val0 with low := env.efer })
  else if name = HV_X64_REGISTER_SYSENTER_CS then
    Except.ok (HV_STATUS_SUCCESS, { val0 with low := env.sysenter_cs })
  else if name = HV_X64_REGISTER_SYSENTER_EIP then
    Except.ok (HV_STATUS_SUCCESS, { val0 with low := env.sysenter_eip })
  else if name = HV_X64_REGISTER_SYSENTER_ESP then
    Except.ok (HV_STATUS_SUCCESS, { val0 with low := env.sysenter_esp })
  else if name = HV_X64_REGISTER_STAR then
    Except.ok (HV_STATUS_SUCCESS, { val0 with low := env.star })
  else if name = HV_X64_REGISTER_LSTAR then
    Except.ok (HV_STATUS_SUCCESS, { val0 with low := env.lstar })
  else if name = HV_X64_REGISTER_CSTAR then
    Except.ok (HV_STATUS_SUCCESS, { val0 with low := env.cstar })
  else if name = HV_X64_REGISTER_SFMASK then
    Except.ok (HV_STATUS_SUCCESS, { val0 with low := env.fmask })
  else if name = HV_X64_REGISTER_TSC_AUX then
    Except.ok (HV_STATUS_SUCCESS, { val0 with low := env.tsc_aux })
  else if name = HV_X64_REGISTER_APIC_BASE then
    Except.ok (HV_STATUS_SUCCESS, { val0 with low := c.apic_base })
  else if name = HV_REGISTER_VSM_CAPABILITIES then
    Except.ok (HV_STATUS_SUCCESS, { val0 with low := g.capabilities })
  else if name = HV_REGISTER_VSM_PARTITION_STATUS then
    Except.ok (HV_STATUS_SUCCESS,
      { val0 with low := partition_status_as_u64 g.partition_status })
  else if name = HV_REGISTER_VSM_VP_STATUS then
    match c.vpvsm with
    | none => Except.error ()
    | some v => Except.ok (HV_STATUS_SUCCESS,
        { val0 with low := vp_status_as_u64 v })
  else if name = HV_REGISTER_VSM_PARTITION_CONFIG then
    Except.ok (HV_STATUS_SUCCESS,
      { val0 with low := g.partition_config (get_active_vtl cpuIdx) })
  else if HV_REGISTER_VSM_VP_SECURE_CONFIG_VTL0 ≤ name ∧
          name ≤ HV_REGISTER_VSM_VP_SECURE_CONFIG_VTL14 then
    match get_vsm_vp_secure_vtl_config c (get_active_vtl cpuIdx) name with
    | Except.error e => Except.error e
    | Except.ok none => Except.ok (HV_STATUS_INVALID_PARAMETER, val0)
    | Except.ok (some d) => Except.ok (HV_STATUS_SUCCESS, { val0 with low := d })
  else if name = HV_REGISTER_VP_ASSIST_PAGE then
    Except.ok (HV_STATUS_SUCCESS, { val0 with low := env.msr_hv_vapic })
  else if name = HV_REGISTER_VSM_CODE_PAGE_OFFSETS then
    Except.ok (HV_STATUS_SUCCESS, { val0 with low := get_vsm_code_page_offsets env })
  else
    Except.ok (HV_STATUS_INVALID_PARAMETER, val0)

/-! ## Concrete instances used by witnesses and counterexamples -/

/-- A sample message: the §8 scenario payload `[0xAA × 16]` on type 1. -/
def msgSample : HypervMessage :=
  { header := { message_type := 1, payload_size := 16, message_flags := 0,
                reserved := 0, sender := 0 },
    payload := [170, 170, 170, 170, 170, 170, 170, 170,
                170, 170, 170, 170, 170, 170, 170, 170] }

/-- A sint-2 route with a FREE staged message. -/
def routeFreeW : HvSintRoute :=
  { sint := 2, gsi := 1,
    staged_msg := { msg := msgSample, status := 0,
                    state := HvStagedMsgState.FREE },
    refcount := 1 }

/-- The same route with the staged message in flight (BUSY). -/
def routeBusyW : HvSintRoute :=
  { routeFreeW with
      staged_msg := { routeFreeW.staged_msg with
                        state := HvStagedMsgState.BUSY } }

/-- The same route with the staged message delivered (POSTED, status 0). -/
def routePostedW : HvSintRoute :=
  { routeFreeW with
      staged_msg := { routeFreeW.staged_msg with
                        state := HvStagedMsgState.POSTED } }

/-- An empty message slot. -/
def emptySlot : HypervMessage := default

/-- A SynIC with message and event pages mapped, enabled, all slots free and
all event flags clear. -/
def synicW : SynICStateM :=
  { sctl_enabled := true, msg_page_addr := 4096, event_page_addr := 8192,
    msg_slots := [emptySlot, emptySlot, emptySlot, emptySlot],
    msg_page_dirty := false, event_words := fun _ => 0,
    event_page_dirty := false }

/-- The same SynIC with event-flag bit 7 of sint 2 already set. -/
def synicBit7W : SynICStateM :=
  { synicW with
      event_words := fun i => if i = eventWordIndex 2 0 then 2 ^ 7 else 0 }

/-- A sint-15 route (used to show the event-flag off-by-one lands past the
event page). -/
def routeSint15 : HvSintRoute :=
  { sint := 15, gsi := 0,
    staged_msg := { msg := msgSample, status := 0,
                    state := HvStagedMsgState.FREE },
    refcount := 1 }

/-- Source CPU state of the VTL-switch counterexample: dr7 = 5. -/
def activeEnvC4 : CPUX86StateM :=
  { envZero with dr := fun i => if i = 7 then 5 else 0 }

/-- Destination CPU state of the VTL-switch counterexample: its own dr7 = 9
before the switch. -/
def nextEnvC4 : CPUX86StateM :=
  { envZero with dr := fun i => if i = 7 then 9 else 0 }

/-- A two-vCPU machine (VTL0 and VTL1 contexts), no VSM state attached. -/
def machineTwoCpus : MachineM := { cpus := [default, default] }

/-- A three-vCPU machine whose highest context is VTL2 and which also has a
VTL3 context available, so a VTL_CALL from VTL2 can resolve its next VTL. -/
def machineFourCpus : MachineM :=
  { cpus := [default, default, default, default] }

/-- Partition status for the ENABLE_PARTITION_VTL witness: only VTL0
enabled, maximum VTL 15. -/
def stPartW : hv_register_vsm_partition_status :=
  { enabled_vtl_set := 1, maximum_vtl := 15, mbec_enabled_vtl_set := 0 }

/-- Partition status for the ENABLE_VP_VTL witness: VTL0 and VTL1 enabled at
partition scope. -/
def stPartVtl1W : hv_register_vsm_partition_status :=
  { enabled_vtl_set := 3, maximum_vtl := 15, mbec_enabled_vtl_set := 0 }

/-- A single-vCPU machine whose VTL0 context already has VSM state (only
VTL0 enabled for the vCPU). -/
def machineC9 : MachineM :=
  { cpus := [{ env := envZero, apic_base := 0, stopped := false,
               vpvsm := some (vp_vsm_realize_state 0 privStateZero) }] }

/-- The all-zero initial VP context. -/
def vpContextZero : hv_init_vp_context :=
  { rip := 0, rsp := 0, rflags := 0, cs := default, ds := default,
    es := default, fs := default, gs := default, ss := default,
    tr := default, ldtr := default, idtr := default, gdtr := default,
    efer := 0, cr0 := 0, cr3 := 0, cr4 := 0, msr_cr_pat := 0 }

/-- ENABLE_VP_VTL input: self partition, self vCPU, target VTL 1, with a
non-trivial initial rip/rsp to make the seeding visible. -/
def inputC9 : hv_enable_vp_vtl :=
  { partition_id := HV_PARTITION_ID_SELF, vp_index := HV_VP_INDEX_SELF,
    target_vtl := 1,
    vp_context := { vpContextZero with rip := 0x1000, rsp := 0x2000 } }

/-! ## Theorems -/

/-- C1: `hyperv_post_msg` succeeds only when the staged-message state is
FREE — it then moves the state to BUSY, copies the caller's payload into the
mailbox, takes one reference on the route and schedules delivery on the
owning vCPU; when the state is BUSY or POSTED it returns `-EAGAIN` and
changes nothing (no copy, no reference, no scheduling). -/
theorem C1_post_succeeds_only_when_free (r : HvSintRoute)
    (src : HypervMessage) :
    (r.staged_msg.state = HvStagedMsgState.FREE →
      hyperv_post_msg r src =
        (0,
         { r with
             staged_msg := { r.staged_msg with
                               state := HvStagedMsgState.BUSY, msg := src },
             refcount := r.refcount + 1 },
         true)) ∧
    ((r.staged_msg.state = HvStagedMsgState.BUSY ∨
      r.staged_msg.state = HvStagedMsgState.POSTED) →
      hyperv_post_msg r src = (-EAGAIN, r, false)) := by
  constructor
  · intro h
    simp [hyperv_post_msg, h]
  · rintro (h | h) <;> simp [hyperv_post_msg, h]

/-- Witness for C1: the post succeeds on a FREE route and fails with
`-EAGAIN`, changing nothing, on a BUSY one. -/
theorem C1_post_succeeds_only_when_free_witness :
    hyperv_post_msg routeFreeW msgSample =
      (0,
       { routeFreeW with
           staged_msg := { routeFreeW.staged_msg with
                             state := HvStagedMsgState.BUSY,
                             msg := msgSample },
           refcount := routeFreeW.refcount + 1 },
       true) ∧
    hyperv_post_msg routeBusyW msgSample = (-EAGAIN, routeBusyW, false) :=
  ⟨(C1_post_succeeds_only_when_free routeFreeW msgSample).1 rfl,
   (C1_post_succeeds_only_when_free routeBusyW msgSample).2 (Or.inl rfl)⟩

/-- C2: `cpu_post_msg`, run with the staged state BUSY, moves the state to
POSTED unconditionally, with exactly one of three outcomes: (1) no message
page — status `-ENXIO`, completion scheduled immediately; (2) the
destination slot holds an unconsumed message — its pending flag is set,
status `-EAGAIN`, no completion scheduled; (3) the slot is free — the
staged payload is copied byte-identically into the slot, the page is
dirty-marked, the route's interrupt is raised, completion scheduled. -/
theorem C2_cpu_post_msg_three_outcomes (synic : SynICStateM)
    (r : HvSintRoute) (hb : r.staged_msg.state = HvStagedMsgState.BUSY) :
    (synic.msg_page_addr = 0 →
      cpu_post_msg synic r =
        Except.ok (synic,
          { r with staged_msg := { r.staged_msg with
              status := -ENXIO_errno, state := HvStagedMsgState.POSTED } },
          true)) ∧
    (synic.msg_page_addr ≠ 0 →
      (synic.msg_slots.getD r.sint default).header.message_type ≠
        HV_MESSAGE_NONE →
      cpu_post_msg synic r =
        Except.ok
          ({ synic with
               msg_slots := synic.msg_slots.set r.sint
                 { synic.msg_slots.getD r.sint default with
                     header := { (synic.msg_slots.getD r.sint default).header with
                       message_flags :=
                         (synic.msg_slots.getD r.sint default).header.message_flags
                           ||| HV_MESSAGE_FLAG_PENDING } },
               msg_page_dirty := true },
           { r with staged_msg := { r.staged_msg with
               status := -EAGAIN, state := HvStagedMsgState.POSTED } },
           false)) ∧
    (synic.msg_page_addr ≠ 0 →
      (synic.msg_slots.getD r.sint default).header.message_type =
        HV_MESSAGE_NONE →
      cpu_post_msg synic r =
        Except.ok
          ({ synic with
               msg_slots := synic.msg_slots.set r.sint r.staged_msg.msg,
               msg_page_dirty := true },
           { r with staged_msg := { r.staged_msg with
               status := hyperv_sint_route_set_sint r,
               state := HvStagedMsgState.POSTED } },
           true)) := by
  refine ⟨fun h0 => ?_, fun hp hocc => ?_, fun hp hfree => ?_⟩
  · simp [cpu_post_msg, hb, h0]
  · rw [List.getD_eq_getElem?_getD] at hocc
    simp [cpu_post_msg, hb, hp, hocc, List.getD_eq_getElem?_getD]
  · rw [List.getD_eq_getElem?_getD] at hfree
    simp [cpu_post_msg, hb, hp, hfree, List.getD_eq_getElem?_getD]

/-- Witness for C2: delivering the BUSY route into the mapped SynIC with a
free slot copies the §8 sample payload byte-identically into slot 2, marks
the page dirty, raises the interrupt and schedules completion. -/
theorem C2_cpu_post_msg_three_outcomes_witness :
    routeBusyW.staged_msg.state = HvStagedMsgState.BUSY ∧
    cpu_post_msg synicW routeBusyW =
      Except.ok
        ({ synicW with
             msg_slots := synicW.msg_slots.set routeBusyW.sint
               routeBusyW.staged_msg.msg,
             msg_page_dirty := true },
         { routeBusyW with staged_msg := { routeBusyW.staged_msg with
             status := hyperv_sint_route_set_sint routeBusyW,
             state := HvStagedMsgState.POSTED } },
         true) :=
  ⟨rfl,
   (C2_cpu_post_msg_three_outcomes synicW routeBusyW rfl).2.2
     (by decide) rfl⟩

/-- C3: `sint_msg_bh` is a no-op unless the staged state is POSTED; when it
is POSTED it invokes the callback exactly once with the recorded status,
resets the status to 0, moves POSTED→FREE and drops the post-time
reference — so a second run of the bottom half in the same cycle does
nothing. -/
theorem C3_completion_exactly_once (r : HvSintRoute) :
    (r.staged_msg.state ≠ HvStagedMsgState.POSTED →
      sint_msg_bh r = (r, [])) ∧
    (r.staged_msg.state = HvStagedMsgState.POSTED →
      sint_msg_bh r =
        ({ r with
             staged_msg := { r.staged_msg with
               status := 0, state := HvStagedMsgState.FREE },
             refcount := r.refcount - 1 },
         [r.staged_msg.status]) ∧
      sint_msg_bh (sint_msg_bh r).1 = ((sint_msg_bh r).1, [])) := by
  constructor
  · intro h
    simp [sint_msg_bh, h]
  · intro h
    constructor
    · simp [sint_msg_bh, hyperv_sint_route_unref, h]
    · simp [sint_msg_bh, hyperv_sint_route_unref, h]

/-- Witness for C3: on the POSTED route the callback fires once with the
recorded status 0, the route returns to FREE with the reference dropped,
and a second bottom-half run is a no-op; a BUSY route is untouched. -/
theorem C3_completion_exactly_once_witness :
    sint_msg_bh routePostedW =
      ({ routePostedW with
           staged_msg := { routePostedW.staged_msg with
             status := 0, state := HvStagedMsgState.FREE },
           refcount := routePostedW.refcount - 1 },
       [routePostedW.staged_msg.status]) ∧
    sint_msg_bh (sint_msg_bh routePostedW).1 =
      ((sint_msg_bh routePostedW).1, []) ∧
    sint_msg_bh routeBusyW = (routeBusyW, []) :=
  ⟨((C3_completion_exactly_once routePostedW).2 rfl).1,
   ((C3_completion_exactly_once routePostedW).2 rfl).2,
   (C3_completion_exactly_once routeBusyW).1 (by decide)⟩

/-- Helper: a word already containing every bit of a mask is unchanged by
ORing the mask in. -/
theorem or_eq_self_of_and_eq {x m : Nat} (h : x &&& m = m) : x ||| m = x := by
  apply Nat.eq_of_testBit_eq
  intro i
  have hb := congrArg (fun t => t.testBit i) h
  simp only [Nat.testBit_and] at hb
  simp only [Nat.testBit_or]
  cases hm : m.testBit i with
  | false => simp
  | true =>
    rw [hm] at hb
    simp at hb
    simp [hb, hm]

/-- C6: on an enabled SynIC with a mapped event page, `hyperv_set_event_flag`
for an in-range event number is edge-idempotent: if the bit is already set it
returns success with no dirty-mark and no interrupt; if the bit was clear it
sets it, dirty-marks the event page and raises the sint's interrupt exactly
once. -/
theorem C6_event_flag_edge_idempotent (synic : SynICStateM) (r : HvSintRoute)
    (eventno : Nat) (hin : eventno < HV_EVENT_FLAGS_COUNT)
    (hen : synic.sctl_enabled = true) (hpg : synic.event_page_addr ≠ 0) :
    (synic.event_words (eventWordIndex r.sint (BIT_WORD eventno)) &&&
        BIT_MASK eventno = BIT_MASK eventno →
      hyperv_set_event_flag synic r eventno = (0, synic, 0)) ∧
    (synic.event_words (eventWordIndex r.sint (BIT_WORD eventno)) &&&
        BIT_MASK eventno ≠ BIT_MASK eventno →
      hyperv_set_event_flag synic r eventno =
        (hyperv_sint_route_set_sint r,
         { synic with
             event_words := fun i =>
               if i = eventWordIndex r.sint (BIT_WORD eventno) then
                 synic.event_words (eventWordIndex r.sint (BIT_WORD eventno))
                   ||| BIT_MASK eventno
               else synic.event_words i,
             event_page_dirty := true },
         1)) := by
  have hle : ¬ HV_EVENT_FLAGS_COUNT < eventno := by omega
  constructor
  · intro hset
    obtain ⟨en, mpa, epa, ms, mpd, ew, epd⟩ := synic
    subst hen
    have hw : (fun i =>
        if i = eventWordIndex r.sint (BIT_WORD eventno) then
          ew (eventWordIndex r.sint (BIT_WORD eventno)) ||| BIT_MASK eventno
        else ew i) = ew := by
      funext i
      by_cases hi : i = eventWordIndex r.sint (BIT_WORD eventno)
      · subst hi
        simp [or_eq_self_of_and_eq hset]
      · simp [hi]
    simp [hyperv_set_event_flag, hle, hpg, hset, hw]
  · intro hclear
    simp [hyperv_set_event_flag, hle, hen, hpg, hclear]

/-- Witness for C6: on sint 2, signaling event 7 when its bit is already set
returns success and changes nothing; signaling it when clear sets the bit,
dirty-marks the page and raises the interrupt once. -/
theorem C6_event_flag_edge_idempotent_witness :
    hyperv_set_event_flag synicBit7W routeFreeW 7 = (0, synicBit7W, 0) ∧
    hyperv_set_event_flag synicW routeFreeW 7 =
      (hyperv_sint_route_set_sint routeFreeW,
       { synicW with
           event_words := fun i =>
             if i = eventWordIndex routeFreeW.sint (BIT_WORD 7) then
               synicW.event_words (eventWordIndex routeFreeW.sint (BIT_WORD 7))
                 ||| BIT_MASK 7
             else synicW.event_words i,
           event_page_dirty := true },
       1) :=
  ⟨(C6_event_flag_edge_idempotent synicBit7W routeFreeW 7 (by decide) rfl
      (by decide)).1 (by decide),
   (C6_event_flag_edge_idempotent synicW routeFreeW 7 (by decide) rfl
      (by decide)).2 (by decide)⟩

/-- C7, evaluated at the failing input: the bounds check is `>`, not `>=`,
so `eventno = HV_EVENT_FLAGS_COUNT` is not rejected with `-EINVAL`; instead
the flag write lands at flat word index 64 — at or beyond the
`HV_SINT_COUNT * (HV_EVENT_FLAGS_COUNT / 64)` words that make up the whole
event page (an out-of-bounds write past sint 15's flag vector). -/
theorem C7_boundary_event_not_rejected :
    (hyperv_set_event_flag synicW routeSint15 HV_EVENT_FLAGS_COUNT).1
      ≠ -EINVAL ∧
    (hyperv_set_event_flag synicW routeSint15 HV_EVENT_FLAGS_COUNT).2.1.event_words
        (eventWordIndex 15 (BIT_WORD HV_EVENT_FLAGS_COUNT)) = 1 ∧
    HV_SINT_COUNT * (HV_EVENT_FLAGS_COUNT / 64) ≤
      eventWordIndex 15 (BIT_WORD HV_EVENT_FLAGS_COUNT) := by
  refine ⟨?_, ?_, ?_⟩ <;> decide

/-- C4 counterexample: dr7 — a debug register, and a field the claim lists
among the destination's per-VTL-isolated state — does not retain the
destination's pre-switch value across `hyperv_sync_shared_vtl_state`: it is
saved by `hyperv_save_priv_vtl_state` but never restored by
`hyperv_restore_priv_vtl_state`, so the destination ends up with the
source's dr7 (here source dr7 = 5, destination pre-switch dr7 = 9). -/
theorem C4_counterexample :
    ¬ ((hyperv_sync_shared_vtl_state activeEnvC4 nextEnvC4 privStateZero 0).1.dr 7
        = nextEnvC4.dr 7) := by decide

/-- C4 (amended): after a VTL switch the destination retains its own
pre-switch values exactly for the fields that are both saved by
`hyperv_save_priv_vtl_state` and restored by
`hyperv_restore_priv_vtl_state` — kernel-gsbase, the MSRs, control
registers, rip/rsp/rflags, descriptor tables, segments (modulo the
descriptor-bit round-trip through `hyperv_get_seg`/`hyperv_set_seg`) and
the pending exception/injection state; its fs/gs base MSRs are restored
from the destination's pre-switch fs/gs *segment bases*; dr7, though saved,
is never restored and takes the source's value; every field outside the
snapshot is copied wholesale from the source; the destination is forced
runnable with the BSP bit set in its APIC base. -/
theorem C4_amended_frame (a n : CPUX86StateM)
    (p : kvm_hv_vcpu_per_vtl_state) (q : Nat) :
    (hyperv_sync_shared_vtl_state a n p q).2.1 =
        hyperv_save_priv_vtl_state n p ∧
    (hyperv_sync_shared_vtl_state a n p q).2.2 =
        q ||| MSR_IA32_APICBASE_BSP ∧
    (hyperv_sync_shared_vtl_state a n p q).1.kernelgsbase = n.kernelgsbase ∧
    (hyperv_sync_shared_vtl_state a n p q).1.gsbase = (n.segs 5).base ∧
    (hyperv_sync_shared_vtl_state a n p q).1.fsbase = (n.segs 4).base ∧
    (hyperv_sync_shared_vtl_state a n p q).1.tsc_aux = n.tsc_aux ∧
    (hyperv_sync_shared_vtl_state a n p q).1.sysenter_cs = n.sysenter_cs ∧
    (hyperv_sync_shared_vtl_state a n p q).1.sysenter_esp = n.sysenter_esp ∧
    (hyperv_sync_shared_vtl_state a n p q).1.sysenter_eip = n.sysenter_eip ∧
    (hyperv_sync_shared_vtl_state a n p q).1.star = n.star ∧
    (hyperv_sync_shared_vtl_state a n p q).1.lstar = n.lstar ∧
    (hyperv_sync_shared_vtl_state a n p q).1.cstar = n.cstar ∧
    (hyperv_sync_shared_vtl_state a n p q).1.fmask = n.fmask ∧
    (hyperv_sync_shared_vtl_state a n p q).1.pat = n.pat ∧
    (hyperv_sync_shared_vtl_state a n p q).1.msr_hv_synic_control =
        n.msr_hv_synic_control ∧
    (hyperv_sync_shared_vtl_state a n p q).1.msr_hv_synic_evt_page =
        n.msr_hv_synic_evt_page ∧
    (hyperv_sync_shared_vtl_state a n p q).1.msr_hv_synic_msg_page =
        n.msr_hv_synic_msg_page ∧
    (hyperv_sync_shared_vtl_state a n p q).1.msr_hv_synic_sint =
        n.msr_hv_synic_sint ∧
    (hyperv_sync_shared_vtl_state a n p q).1.msr_hv_stimer_config =
        n.msr_hv_stimer_config ∧
    (hyperv_sync_shared_vtl_state a n p q).1.msr_hv_stimer_count =
        n.msr_hv_stimer_count ∧
    (hyperv_sync_shared_vtl_state a n p q).1.msr_hv_guest_os_id =
        n.msr_hv_guest_os_id ∧
    (hyperv_sync_shared_vtl_state a n p q).1.msr_hv_hypercall =
        n.msr_hv_hypercall ∧
    (hyperv_sync_shared_vtl_state a n p q).1.msr_hv_tsc = n.msr_hv_tsc ∧
    (hyperv_sync_shared_vtl_state a n p q).1.exception_nr = n.exception_nr ∧
    (hyperv_sync_shared_vtl_state a n p q).1.interrupt_injected =
        n.interrupt_injected ∧
    (hyperv_sync_shared_vtl_state a n p q).1.soft_interrupt =
        n.soft_interrupt ∧
    (hyperv_sync_shared_vtl_state a n p q).1.exception_pending =
        n.exception_pending ∧
    (hyperv_sync_shared_vtl_state a n p q).1.exception_injected =
        n.exception_injected ∧
    (hyperv_sync_shared_vtl_state a n p q).1.has_error_code =
        n.has_error_code ∧
    (hyperv_sync_shared_vtl_state a n p q).1.exception_has_payload =
        n.exception_has_payload ∧
    (hyperv_sync_shared_vtl_state a n p q).1.exception_payload =
        n.exception_payload ∧
    (hyperv_sync_shared_vtl_state a n p q).1.triple_fault_pending =
        n.triple_fault_pending ∧
    (hyperv_sync_shared_vtl_state a n p q).1.ins_len = n.ins_len ∧
    (hyperv_sync_shared_vtl_state a n p q).1.sipi_vector = n.sipi_vector ∧
    (hyperv_sync_shared_vtl_state a n p q).1.eip = n.eip ∧
    (hyperv_sync_shared_vtl_state a n p q).1.eflags = n.eflags ∧
    (hyperv_sync_shared_vtl_state a n p q).1.regs =
        Function.update a.regs 4 (n.regs 4) ∧
    (hyperv_sync_shared_vtl_state a n p q).1.cr =
        Function.update
          (Function.update (Function.update a.cr 0 (n.cr 0)) 3 (n.cr 3))
          4 (n.cr 4) ∧
    (hyperv_sync_shared_vtl_state a n p q).1.efer = n.efer ∧
    (hyperv_sync_shared_vtl_state a n p q).1.dr = a.dr ∧
    (hyperv_sync_shared_vtl_state a n p q).1.mp_state =
        KVM_MP_STATE_RUNNABLE ∧
    (hyperv_sync_shared_vtl_state a n p q).1.tr =
        hyperv_set_seg (hyperv_get_seg n.tr) ∧
    (hyperv_sync_shared_vtl_state a n p q).1.ldt =
        hyperv_set_seg (hyperv_get_seg n.ldt) ∧
    (hyperv_sync_shared_vtl_state a n p q).1.idt =
        { a.idt with limit := n.idt.limit, base := n.idt.base } ∧
    (hyperv_sync_shared_vtl_state a n p q).1.gdt =
        { a.gdt with limit := n.gdt.limit, base := n.gdt.base } ∧
    (hyperv_sync_shared_vtl_state a n p q).1.segs 0 =
        hyperv_set_seg (hyperv_get_seg (n.segs 0)) ∧
    (hyperv_sync_shared_vtl_state a n p q).1.segs 1 =
        hyperv_set_seg (hyperv_get_seg (n.segs 1)) ∧
    (hyperv_sync_shared_vtl_state a n p q).1.segs 2 =
        hyperv_set_seg (hyperv_get_seg (n.segs 2)) ∧
    (hyperv_sync_shared_vtl_state a n p q).1.segs 3 =
        hyperv_set_seg (hyperv_get_seg (n.segs 3)) ∧
    (hyperv_sync_shared_vtl_state a n p q).1.segs 4 =
        hyperv_set_seg (hyperv_get_seg (n.segs 4)) ∧
    (hyperv_sync_shared_vtl_state a n p q).1.segs 5 =
        hyperv_set_seg (hyperv_get_seg (n.segs 5)) ∧
    (hyperv_sync_shared_vtl_state a n p q).1.msr_hv_vapic = a.msr_hv_vapic ∧
    (hyperv_sync_shared_vtl_state a n p q).1.vsm_code_page_offsets64 =
        a.vsm_code_page_offsets64 ∧
    (hyperv_sync_shared_vtl_state a n p q).1.other = a.other :=
  ⟨rfl, rfl, rfl, rfl, rfl, rfl, rfl, rfl, rfl, rfl, rfl, rfl, rfl, rfl,
   rfl, rfl, rfl, rfl, rfl, rfl, rfl, rfl, rfl, rfl, rfl, rfl, rfl, rfl,
   rfl, rfl, rfl, rfl, rfl, rfl, rfl, rfl, rfl, rfl, rfl, rfl, rfl, rfl,
   rfl, rfl, rfl, rfl, rfl, rfl, rfl, rfl, rfl, rfl, rfl, rfl⟩

/-- C5, evaluated at the failing input: `hyperv_hcall_vtl_return` contains
no VTL0 guard — issued from VTL0 it asks for the vCPU at index −1 and
crashes in `hyperv_vsm_vcpu`'s assert (a guest-triggerable host crash)
instead of returning an error with both contexts unchanged (first
conjunct).  By contrast a VTL_CALL from VTL2 — above the supported maximum
VTL 1 — is, whenever its next-VTL vCPU exists, cleanly rejected with −1 and
no change to the machine (second conjunct). -/
theorem C5_vtl_return_from_vtl0_crashes :
    hyperv_hcall_vtl_return machineTwoCpus 0 = Except.error () ∧
    hyperv_hcall_vtl_call machineFourCpus 2 =
      Except.ok (-1, machineFourCpus) :=
  ⟨rfl, rfl⟩

/-- Helper: ORing two 16-bit-bounded numbers stays within 16 bits. -/
theorem or_lt_two_pow_16 {x y : Nat} (hx : x < 2 ^ 16) (hy : y < 2 ^ 16) :
    x ||| y < 2 ^ 16 :=
  Nat.bitwise_lt hx hy

/-- C8: ENABLE_PARTITION_VTL (self partition, MBEC off, fast call) fails
with invalid-parameter when the target VTL exceeds the compiled-in maximum;
fails with invalid-parameter, leaving the enabled-VTL set unchanged, when
the target VTL is already enabled; and otherwise succeeds, adding exactly
the target VTL's bit to the partition's enabled-VTL set. -/
theorem C8_enable_partition_vtl (st : hv_register_vsm_partition_status)
    (param2 : Nat) (hmbec : param2 / 256 % 256 % 2 = 0)
    (hset16 : st.enabled_vtl_set < 65536) (hmax : st.maximum_vtl < 16) :
    (st.maximum_vtl < param2 % 256 →
      hyperv_hcall_vtl_enable_partition_vtl st HV_PARTITION_ID_SELF param2
        true = (HV_STATUS_INVALID_PARAMETER, st)) ∧
    (param2 % 256 ≤ st.maximum_vtl →
      st.enabled_vtl_set &&& 2 ^ (param2 % 256) ≠ 0 →
      hyperv_hcall_vtl_enable_partition_vtl st HV_PARTITION_ID_SELF param2
        true = (HV_STATUS_INVALID_PARAMETER, st)) ∧
    (param2 % 256 ≤ st.maximum_vtl →
      st.enabled_vtl_set &&& 2 ^ (param2 % 256) = 0 →
      hyperv_hcall_vtl_enable_partition_vtl st HV_PARTITION_ID_SELF param2
        true =
        (HV_STATUS_SUCCESS,
         { st with enabled_vtl_set :=
             st.enabled_vtl_set ||| 2 ^ (param2 % 256) })) := by
  refine ⟨fun h1 => ?_, fun h1 h2 => ?_, fun h1 h2 => ?_⟩
  · simp [hyperv_hcall_vtl_enable_partition_vtl, hmbec, h1]
  · simp [hyperv_hcall_vtl_enable_partition_vtl, hmbec, h2, Nat.not_lt.mpr h1]
  · have hlt : 2 ^ (param2 % 256) < 65536 := by
      calc 2 ^ (param2 % 256) ≤ 2 ^ 15 :=
            Nat.pow_le_pow_right (by norm_num) (by omega)
        _ < 65536 := by norm_num
    have hor : st.enabled_vtl_set ||| 2 ^ (param2 % 256) < 65536 :=
      or_lt_two_pow_16 (by omega) (by omega)
    simp [hyperv_hcall_vtl_enable_partition_vtl, hmbec, h2,
          Nat.not_lt.mpr h1, Nat.mod_eq_of_lt hor]

/-- Witness for C8: with only VTL0 enabled and maximum VTL 15, enabling
VTL1 succeeds and adds exactly bit 1; re-enabling VTL0 fails with
invalid-parameter and leaves the set unchanged. -/
theorem C8_enable_partition_vtl_witness :
    hyperv_hcall_vtl_enable_partition_vtl stPartW HV_PARTITION_ID_SELF 1
      true =
      (HV_STATUS_SUCCESS,
       { stPartW with enabled_vtl_set :=
           stPartW.enabled_vtl_set ||| 2 ^ (1 % 256) }) ∧
    hyperv_hcall_vtl_enable_partition_vtl stPartW HV_PARTITION_ID_SELF 0
      true = (HV_STATUS_INVALID_PARAMETER, stPartW) :=
  ⟨(C8_enable_partition_vtl stPartW 1 (by decide) (by decide)
      (by decide)).2.2 (by decide) (by decide),
   (C8_enable_partition_vtl stPartW 0 (by decide) (by decide)
      (by decide)).2.1 (by decide) (by decide)⟩

/-- C10: for every CPU state, `get_vp_register` invoked with
LDTR, TR, IDTR or GDTR returns success with an output value whose low and
high halves are both zero, independent of the actual descriptor-table and
task register contents: the arm's `memcpy(&rhs, val, ...)` copies the
zeroed output over the local segment temporary instead of the reverse. -/
theorem C10_table_registers_read_zero (cpuIdx : Nat) (c : CPUStateM)
    (g : VsmGlobalsM) :
    get_vp_register HV_X64_REGISTER_LDTR cpuIdx c g =
      Except.ok (HV_STATUS_SUCCESS, { low := 0, high := 0 }) ∧
    get_vp_register HV_X64_REGISTER_TR cpuIdx c g =
      Except.ok (HV_STATUS_SUCCESS, { low := 0, high := 0 }) ∧
    get_vp_register HV_X64_REGISTER_IDTR cpuIdx c g =
      Except.ok (HV_STATUS_SUCCESS, { low := 0, high := 0 }) ∧
    get_vp_register HV_X64_REGISTER_GDTR cpuIdx c g =
      Except.ok (HV_STATUS_SUCCESS, { low := 0, high := 0 }) :=
  ⟨rfl, rfl, rfl, rfl⟩

/-- Helper: looking up an existing vCPU by VTL succeeds and returns its
index. -/
theorem hyperv_vsm_vcpu_ok (m : MachineM) (v : Nat)
    (h : v < m.cpus.length) : hyperv_vsm_vcpu m (v : Int) = Except.ok v := by
  simp [hyperv_vsm_vcpu, qemu_get_cpu, h]

/-- C9: ENABLE_VP_VTL (slow call, self partition, self vCPU, in-range target
VTL) fails with invalid-parameter when the target VTL is not enabled at
partition scope; fails with invalid-parameter when the VTL is already
enabled for the target vCPU; and on success (target VTL partition-enabled,
not yet vCPU-enabled, its context not yet created) creates the target VTL's
execution context, seeds that context's architectural state from the
caller-supplied `vp_context` via `hyperv_set_vtl_cpu_state`, attaches fresh
VSM state to it, and adds the VTL's bit to the calling vCPU's enabled-VTL
set. -/
theorem C9_enable_vp_vtl (st : hv_register_vsm_partition_status)
    (m : MachineM) (csIdx : Nat) (input : hv_enable_vp_vtl)
    (v : VpVsmStateM)
    (hpd : input.partition_id = HV_PARTITION_ID_SELF)
    (hvp : input.vp_index = HV_VP_INDEX_SELF)
    (hcs : csIdx < m.cpus.length)
    (hvtl : input.target_vtl ≤ st.maximum_vtl) :
    (st.enabled_vtl_set &&& 2 ^ input.target_vtl = 0 →
      hyperv_hcall_vtl_enable_vp_vtl st m csIdx input false =
        Except.ok (HV_STATUS_INVALID_PARAMETER, m)) ∧
    (st.enabled_vtl_set &&& 2 ^ input.target_vtl ≠ 0 →
      (m.cpus.getD csIdx default).vpvsm = some v →
      v.enabled_vtl_set &&& 2 ^ input.target_vtl ≠ 0 →
      hyperv_hcall_vtl_enable_vp_vtl st m csIdx input false =
        Except.ok (HV_STATUS_INVALID_PARAMETER, m)) ∧
    (st.enabled_vtl_set &&& 2 ^ input.target_vtl ≠ 0 →
      (m.cpus.getD csIdx default).vpvsm = some v →
      v.enabled_vtl_set &&& 2 ^ input.target_vtl = 0 →
      input.target_vtl = m.cpus.length →
      v.enabled_vtl_set < 65536 → st.maximum_vtl < 16 →
      ∃ m1, hyperv_hcall_vtl_enable_vp_vtl st m csIdx input false =
          Except.ok (HV_STATUS_SUCCESS, m1) ∧
        m1.cpus.length = m.cpus.length + 1 ∧
        (m1.cpus.getD input.target_vtl default).env =
          hyperv_set_vtl_cpu_state envZero input.vp_context ∧
        (m1.cpus.getD input.target_vtl default).vpvsm =
          some (vp_vsm_realize_state input.target_vtl privStateZero) ∧
        (m1.cpus.getD csIdx default).vpvsm =
          some { v with enabled_vtl_set :=
                   v.enabled_vtl_set ||| 2 ^ input.target_vtl }) := by
  have hnlt : ¬ st.maximum_vtl < input.target_vtl := Nat.not_lt.mpr hvtl
  refine ⟨fun hbit => ?_, fun hbit hv hvbit => ?_,
          fun hbit hv hvbit hlen hv16 hm16 => ?_⟩
  · simp [hyperv_hcall_vtl_enable_vp_vtl, hpd, hvp, hnlt, hbit,
          Bind.bind, Except.bind, Pure.pure, Except.pure]
  · rw [List.getD_eq_getElem?_getD] at hv
    simp [hyperv_hcall_vtl_enable_vp_vtl, hpd, hvp, hnlt, hbit, hv, hvbit,
          Bind.bind, Except.bind, Pure.pure, Except.pure]
  · rw [List.getD_eq_getElem?_getD] at hv
    have hne : csIdx ≠ input.target_vtl := by omega
    have hne2 : input.target_vtl ≠ csIdx := by omega
    have hlt1 : input.target_vtl < (m.cpus ++ [x86_cpu_new_cpu]).length := by
      simp [hlen]
    have hvcpu := hyperv_vsm_vcpu_ok
      { cpus := m.cpus ++ [x86_cpu_new_cpu] } input.target_vtl (by simpa using hlt1)
    have hfresh : (m.cpus ++ [x86_cpu_new_cpu])[input.target_vtl]? =
        some x86_cpu_new_cpu := by
      rw [hlen]
      exact List.getElem?_concat_length _ _
    have hcsapp : (m.cpus ++ [x86_cpu_new_cpu])[csIdx]? = m.cpus[csIdx]? :=
      List.getElem?_append_left hcs
    have hmod : (v.enabled_vtl_set ||| 2 ^ input.target_vtl) % 65536 =
        v.enabled_vtl_set ||| 2 ^ input.target_vtl := by
      refine Nat.mod_eq_of_lt (or_lt_two_pow_16 (by omega) ?_)
      calc 2 ^ input.target_vtl ≤ 2 ^ 15 :=
            Nat.pow_le_pow_right (by norm_num) (by omega)
        _ < 2 ^ 16 := by norm_num
    have he : m.cpus[csIdx]? = some (m.cpus[csIdx]) :=
      List.getElem?_eq_getElem hcs
    have hv2 : (m.cpus[csIdx]).vpvsm = some v := by
      rw [he] at hv
      simpa using hv
    have hfresh2 : (m.cpus ++ [x86_cpu_new_cpu])[input.target_vtl] =
        x86_cpu_new_cpu :=
      Option.some.inj ((List.getElem?_eq_getElem hlt1).symm.trans hfresh)
    refine ⟨{ cpus :=
                (((m.cpus ++ [x86_cpu_new_cpu]).set input.target_vtl
                    { x86_cpu_new_cpu with
                        vpvsm := some (vp_vsm_realize_state input.target_vtl
                                         privStateZero) }).set input.target_vtl
                    { x86_cpu_new_cpu with
                        vpvsm := some (vp_vsm_realize_state input.target_vtl
                                         privStateZero),
                        env := hyperv_set_vtl_cpu_state x86_cpu_new_cpu.env
                                 input.vp_context }).set csIdx
                  { (m.cpus.getD csIdx default) with
                      vpvsm := some { v with enabled_vtl_set :=
                        (v.enabled_vtl_set ||| 2 ^ input.target_vtl) % 65536 } } },
      ?_, ?_, ?_, ?_, ?_⟩
    · have hxv : x86_cpu_new_cpu.vpvsm = none := rfl
      have hxe : x86_cpu_new_cpu.env = envZero := rfl
      have hxa : x86_cpu_new_cpu.apic_base = 0 := rfl
      have hxs : x86_cpu_new_cpu.stopped = false := rfl
      have hlt1n : input.target_vtl < m.cpus.length + 1 := by omega
      simp [hyperv_hcall_vtl_enable_vp_vtl, hyperv_init_vtl_vcpu,
        hyperv_vp_vsm_add, updateCpuAt, hpd, hvp, hnlt, hbit, hv, hv2,
        hvbit, hvcpu, hfresh, hfresh2, hcsapp, hne, hne2, hlt1, hlt1n,
        hcs, hxv, hxe, hxa, hxs, List.getD_eq_getElem?_getD,
        List.getElem?_set_self, List.getElem?_set_ne, Bind.bind,
        Except.bind, Pure.pure, Except.pure]
    · simp [hlen]
    · have hxe : x86_cpu_new_cpu.env = envZero := rfl
      have hlt1n : input.target_vtl < m.cpus.length + 1 := by omega
      simp [List.getD_eq_getElem?_getD, List.getElem?_set_ne hne,
            List.getElem?_set_self, hlt1n, hxe]
    · have hlt1n : input.target_vtl < m.cpus.length + 1 := by omega
      simp [List.getD_eq_getElem?_getD, List.getElem?_set_ne hne,
            List.getElem?_set_self, hlt1n]
    · have hcsn : csIdx < m.cpus.length + 1 := by omega
      simp [List.getD_eq_getElem?_getD, List.getElem?_set_self, hcsn, hmod]

/-- Witness for C9: on a single-vCPU machine with VTL0-only VSM state and
VTL1 partition-enabled, ENABLE_VP_VTL for VTL1 succeeds, creates the VTL1
context seeded from the supplied `vp_context`, and adds bit 1 to the vCPU's
enabled-VTL set. -/
theorem C9_enable_vp_vtl_witness :
    ∃ m1, hyperv_hcall_vtl_enable_vp_vtl stPartVtl1W machineC9 0 inputC9
        false = Except.ok (HV_STATUS_SUCCESS, m1) ∧
      m1.cpus.length = machineC9.cpus.length + 1 ∧
      (m1.cpus.getD inputC9.target_vtl default).env =
        hyperv_set_vtl_cpu_state envZero inputC9.vp_context ∧
      (m1.cpus.getD inputC9.target_vtl default).vpvsm =
        some (vp_vsm_realize_state inputC9.target_vtl privStateZero) ∧
      (m1.cpus.getD 0 default).vpvsm =
        some { vp_vsm_realize_state 0 privStateZero with
                 enabled_vtl_set :=
                   (vp_vsm_realize_state 0 privStateZero).enabled_vtl_set
                     ||| 2 ^ inputC9.target_vtl } :=
  (C9_enable_vp_vtl stPartVtl1W machineC9 0 inputC9
      (vp_vsm_realize_state 0 privStateZero) rfl rfl (by decide)
      (by decide)).2.2 (by decide) rfl (by decide) rfl (by decide)
    (by decide)

end QemuHyperv
